import Mathlib

/-!
Verification of the query-orchestration pipeline of the intelligent-search
platform (backend/pipeline/retriever.py, generator.py, intent_classifier.py,
orchestrator.py), shallowly embedded in Lean: pure functions become Lean
functions, provider calls (embedding, vector index, text generation, JSON
parsing, recommendation ranking) become explicit oracle parameters, Python
floats become rationals (only comparisons occur, never float arithmetic),
and Python dict-shaped filter literals become a closed filter algebra.
-/

namespace ISP

/-- One assigned play of a user (backend/core/user_context.py, AssignedPlay). -/
structure AssignedPlay where
  play_id : String
  play_title : String
  status : String
  completed_at : Option String
deriving DecidableEq, Repr

/-- Trusted per-request user context (backend/core/user_context.py, UserContext). -/
structure UserContext where
  user_id : String
  username : String
  display_name : String
  company_id : String
  company_name : String
  assigned_plays : List AssignedPlay
deriving DecidableEq, Repr

/-- The derived property UserContext.assigned_play_ids. -/
def UserContext.assigned_play_ids (ctx : UserContext) : List String :=
  ctx.assigned_plays.map (fun ap => ap.play_id)

/-- The closed filter algebra: the Pinecone metadata pre-filter dictionaries
built in backend/pipeline/retriever.py use exactly the operators $eq, $in,
$and, $or, embedded here as an inductive type. -/
inductive Filter where
  | eq (field : String) (value : String)
  | isIn (field : String) (values : List String)
  | and (clauses : List Filter)
  | or (clauses : List Filter)

/-- The company fence: always the first conjunct of every built filter
(retriever.py line 26). -/
def company_fence (ctx : UserContext) : Filter :=
  Filter.eq "company_id" ctx.company_id

/-- The knowledge filter literal of build_pinecone_filter (retriever.py lines 28-35). -/
def knowledge_filter (ctx : UserContext) : Filter :=
  Filter.and
    [company_fence ctx,
     Filter.eq "content_type" "knowledge",
     Filter.isIn "play_id" ctx.assigned_play_ids]

/-- The submission filter literal of build_pinecone_filter (retriever.py lines 37-44). -/
def submission_filter (ctx : UserContext) : Filter :=
  Filter.and
    [company_fence ctx,
     Filter.eq "content_type" "submission",
     Filter.eq "user_id" ctx.user_id]

/-- The combined filter literal of build_pinecone_filter (retriever.py lines 46-66). -/
def combined_filter (ctx : UserContext) : Filter :=
  Filter.and
    [company_fence ctx,
     Filter.or
       [Filter.and
          [Filter.eq "content_type" "knowledge",
           Filter.isIn "play_id" ctx.assigned_play_ids],
        Filter.and
          [Filter.eq "content_type" "submission",
           Filter.eq "user_id" ctx.user_id]]]

/-- build_pinecone_filter (retriever.py lines 18-74): the intent string selects
one of the three filter shapes; every unrecognised intent falls back to the
knowledge filter. -/
def build_pinecone_filter (ctx : UserContext) (intent : String) : Filter :=
  if intent = "performance_history" then submission_filter ctx
  else if intent = "combined" then combined_filter ctx
  else knowledge_filter ctx

mutual

/-- A record metadata assignment: each metadata field of a stored record holds
a string value. A filter is evaluated against it exactly as Pinecone evaluates
$eq / $in / $and / $or. -/
def satisfies (m : String → String) : Filter → Bool
  | Filter.eq f v => m f = v
  | Filter.isIn f vs => vs.contains (m f)
  | Filter.and cs => satisfiesAll m cs
  | Filter.or cs => satisfiesAny m cs

def satisfiesAll (m : String → String) : List Filter → Bool
  | [] => true
  | c :: cs => satisfies m c && satisfiesAll m cs

def satisfiesAny (m : String → String) : List Filter → Bool
  | [] => false
  | c :: cs => satisfies m c || satisfiesAny m cs

end

/-- Every filter built by build_pinecone_filter forces the record company_id
to equal the context company_id. -/
theorem satisfies_build_company (ctx : UserContext) (intent : String)
    (m : String → String)
    (h : satisfies m (build_pinecone_filter ctx intent) = true) :
    m "company_id" = ctx.company_id := by
  unfold build_pinecone_filter at h
  split at h
  · simp [submission_filter, company_fence, satisfies, satisfiesAll] at h
    exact h.1
  · split at h
    · simp [combined_filter, company_fence, satisfies, satisfiesAll] at h
      exact h.1
    · simp [knowledge_filter, company_fence, satisfies, satisfiesAll] at h
      exact h.1

/-- Claim C1: for every user context and every intent string, the filter
returned by build_pinecone_filter is an And-rooted expression whose first
conjunct is Eq(company_id, ctx.company_id). -/
theorem C1_company_fence_first_conjunct (ctx : UserContext) (intent : String) :
    ∃ rest : List Filter,
      build_pinecone_filter ctx intent =
        Filter.and (Filter.eq "company_id" ctx.company_id :: rest) := by
  unfold build_pinecone_filter
  split
  · exact ⟨_, rfl⟩
  · split
    · exact ⟨_, rfl⟩
    · exact ⟨_, rfl⟩

/-- Claim C2: filters built for two contexts with distinct company_id values
(same intent) are mutually exclusive: no record metadata satisfies both. -/
theorem C2_filters_mutually_exclusive (ctx₁ ctx₂ : UserContext)
    (intent : String) (m : String → String)
    (h : ctx₁.company_id ≠ ctx₂.company_id) :
    ¬ (satisfies m (build_pinecone_filter ctx₁ intent) = true ∧
       satisfies m (build_pinecone_filter ctx₂ intent) = true) := by
  rintro ⟨h₁, h₂⟩
  exact h ((satisfies_build_company ctx₁ intent m h₁).symm.trans
    (satisfies_build_company ctx₂ intent m h₂))

/-- Witness for C2 at concrete inputs: two contexts with company_id values
"acme" and "globex", the combined intent, and a record carrying "acme". -/
theorem C2_filters_mutually_exclusive_witness :
    ¬ (satisfies (fun _ => "acme")
         (build_pinecone_filter
           ⟨"u1", "a", "A", "acme", "Acme", []⟩ "combined") = true ∧
       satisfies (fun _ => "acme")
         (build_pinecone_filter
           ⟨"u2", "b", "B", "globex", "Globex", []⟩ "combined") = true) :=
  C2_filters_mutually_exclusive
    ⟨"u1", "a", "A", "acme", "Acme", []⟩
    ⟨"u2", "b", "B", "globex", "Globex", []⟩
    "combined" (fun _ => "acme") (by decide)

/-- Claim C3: the filter shape is selected solely from the intent:
performance_history yields the submission shape, combined yields the combined
shape, and any other intent (recognised or not) yields the knowledge shape. -/
theorem C3_intent_selects_filter_shape (ctx : UserContext) (intent : String) :
    (intent = "performance_history" →
      build_pinecone_filter ctx intent =
        Filter.and
          [Filter.eq "company_id" ctx.company_id,
           Filter.eq "content_type" "submission",
           Filter.eq "user_id" ctx.user_id]) ∧
    (intent = "combined" →
      build_pinecone_filter ctx intent =
        Filter.and
          [Filter.eq "company_id" ctx.company_id,
           Filter.or
             [Filter.and
                [Filter.eq "content_type" "knowledge",
                 Filter.isIn "play_id" ctx.assigned_play_ids],
              Filter.and
                [Filter.eq "content_type" "submission",
                 Filter.eq "user_id" ctx.user_id]]]) ∧
    (intent ≠ "performance_history" → intent ≠ "combined" →
      build_pinecone_filter ctx intent =
        Filter.and
          [Filter.eq "company_id" ctx.company_id,
           Filter.eq "content_type" "knowledge",
           Filter.isIn "play_id" ctx.assigned_play_ids]) := by
  refine ⟨fun h => ?_, fun h => ?_, fun h₁ h₂ => ?_⟩
  · simp [build_pinecone_filter, h, submission_filter, company_fence]
  · simp [build_pinecone_filter, h, combined_filter, company_fence]
  · simp [build_pinecone_filter, h₁, h₂, knowledge_filter, company_fence]

/-- Witness for C3 at a concrete context and the unknown intent "gibberish":
the knowledge filter shape is returned. -/
theorem C3_intent_selects_filter_shape_witness :
    build_pinecone_filter
      ⟨"u1", "a", "A", "acme", "Acme", [⟨"p1", "Play One", "assigned", none⟩]⟩
      "gibberish" =
      Filter.and
        [Filter.eq "company_id" "acme",
         Filter.eq "content_type" "knowledge",
         Filter.isIn "play_id" ["p1"]] :=
  (C3_intent_selects_filter_shape
    ⟨"u1", "a", "A", "acme", "Acme", [⟨"p1", "Play One", "assigned", none⟩]⟩
    "gibberish").2.2 (by simp) (by simp)

/-- Metadata of one vector-index match, as consumed by retrieve_chunks
(retriever.py lines 113-129): every field is read with dict.get, so each is
optional here; absent string fields default to "" at chunk construction. -/
structure MatchMeta where
  asset_id : Option String
  asset_type : Option String
  play_id : Option String
  play_title : Option String
  rep_title : Option String
  chunk_text : Option String
  page_number : Option Int
  timestamp_start : Option String
  timestamp_end : Option String
  section_id : Option String
  heading : Option String
  feedback_score : Option Int
deriving DecidableEq, Repr

/-- One match of the vector-index query result: a similarity score and the
stored metadata. Scores are modelled as rationals; the code only compares
them, it never computes with them. -/
structure VectorMatch where
  score : Rat
  metadata : MatchMeta
deriving DecidableEq, Repr

/-- SourceChunk (backend/models/api_schemas.py): the retrievable unit returned
by the Retriever. -/
structure SourceChunk where
  asset_id : String
  asset_type : String
  play_id : Option String
  play_title : String
  rep_title : String
  chunk_text : String
  page_number : Option Int
  timestamp_start : Option String
  timestamp_end : Option String
  score : Option Rat
  section_id : Option String
  heading : Option String
  feedback_score : Option Int
deriving DecidableEq, Repr

/-- The SourceChunk construction of retrieve_chunks (retriever.py lines
114-130): meta.get with default "" for required strings, plain meta.get for
optional fields, and the match score attached. -/
def chunk_of_match (mt : VectorMatch) : SourceChunk :=
  { asset_id := mt.metadata.asset_id.getD ""
    asset_type := mt.metadata.asset_type.getD ""
    play_id := mt.metadata.play_id
    play_title := mt.metadata.play_title.getD ""
    rep_title := mt.metadata.rep_title.getD ""
    chunk_text := mt.metadata.chunk_text.getD ""
    page_number := mt.metadata.page_number
    timestamp_start := mt.metadata.timestamp_start
    timestamp_end := mt.metadata.timestamp_end
    score := some mt.score
    section_id := mt.metadata.section_id
    heading := mt.metadata.heading
    feedback_score := mt.metadata.feedback_score }

/-- retrieve_chunks (retriever.py lines 77-132). The embedding call and the
vector-index query are oracles: `results_` stands for the match list the index
returns for the embedded query under the built filter, and
`similarity_threshold` for settings.similarity_threshold. The short-circuit
branch returns [] without consulting `results_` at all, which models making no
provider call. -/
def retrieve_chunks (ctx : UserContext) (intent : String)
    (results_ : List VectorMatch) (similarity_threshold : Rat) :
    List SourceChunk :=
  if ctx.assigned_play_ids = [] ∧ intent ≠ "performance_history" then []
  else
    ((results_.filter (fun mt => !(mt.score < similarity_threshold))).map
      chunk_of_match)

/-- Claim C4: with an empty assigned-play list and intent other than
performance_history, retrieve_chunks returns [] for every possible provider
result (no provider call is consulted); otherwise the result is exactly the
provider match list with sub-threshold entries removed, mapped to SourceChunk
in the provider order. -/
theorem C4_retrieve_chunks_shape (ctx : UserContext) (intent : String)
    (similarity_threshold : Rat) :
    (ctx.assigned_play_ids = [] → intent ≠ "performance_history" →
      ∀ results_ : List VectorMatch,
        retrieve_chunks ctx intent results_ similarity_threshold = []) ∧
    (¬ (ctx.assigned_play_ids = [] ∧ intent ≠ "performance_history") →
      ∀ results_ : List VectorMatch,
        retrieve_chunks ctx intent results_ similarity_threshold =
          (results_.filter (fun mt => similarity_threshold ≤ mt.score)).map
            chunk_of_match) := by
  constructor
  · intro h₁ h₂ results_
    simp [retrieve_chunks, h₁, h₂]
  · intro h results_
    simp only [retrieve_chunks, if_neg h]
    congr 1
    apply List.filter_congr
    intro mt _
    rcases lt_or_ge mt.score similarity_threshold with hlt | hge
    · simp [hlt, not_le.mpr hlt]
    · simp [hge, not_lt.mpr hge]

/-- Witness for C4: both branches at concrete inputs. A user with no assigned
plays and intent assigned_knowledge gets [] even though the provider would
have returned a match; a user with one assigned play gets the thresholded,
mapped match list. -/
theorem C4_retrieve_chunks_shape_witness :
    retrieve_chunks ⟨"u1", "a", "A", "acme", "Acme", []⟩ "assigned_knowledge"
        [⟨(7 : Rat), ⟨some "x", some "pdf", some "p1", some "P", some "R",
          some "t", some 1, none, none, none, none, none⟩⟩] ((3 : Rat)) = [] ∧
    retrieve_chunks
        ⟨"u1", "a", "A", "acme", "Acme", [⟨"p1", "Play One", "assigned", none⟩]⟩
        "assigned_knowledge"
        [⟨(6 : Rat), ⟨some "x", some "pdf", some "p1", some "P", some "R",
          some "t", some 1, none, none, none, none, none⟩⟩,
         ⟨(2 : Rat), ⟨some "y", some "pdf", some "p1", some "P", some "R",
          some "t", some 2, none, none, none, none, none⟩⟩] ((3 : Rat)) =
      [chunk_of_match
        ⟨(6 : Rat), ⟨some "x", some "pdf", some "p1", some "P", some "R",
          some "t", some 1, none, none, none, none, none⟩⟩] := by
  constructor
  · exact (C4_retrieve_chunks_shape ⟨"u1", "a", "A", "acme", "Acme", []⟩
      "assigned_knowledge" ((3 : Rat))).1 (by decide) (by decide) _
  · have h := (C4_retrieve_chunks_shape
      ⟨"u1", "a", "A", "acme", "Acme", [⟨"p1", "Play One", "assigned", none⟩]⟩
      "assigned_knowledge" ((3 : Rat))).2 (by decide)
      [⟨(6 : Rat), ⟨some "x", some "pdf", some "p1", some "P", some "R",
        some "t", some 1, none, none, none, none, none⟩⟩,
       ⟨(2 : Rat), ⟨some "y", some "pdf", some "p1", some "P", some "R",
        some "t", some 2, none, none, none, none, none⟩⟩]
    rw [h]
    decide

/-- The sentinel text a grounded generation returns when the context cannot
answer the query (generator.py line 23). -/
def SENTINEL : String := "INSUFFICIENT_CONTEXT"

/-- Embedding of the Python str.strip method: drop leading and trailing
whitespace characters. Defined over the character list so that it is kernel
computable. -/
def strip (s : String) : String :=
  ⟨((s.data.dropWhile Char.isWhitespace).reverse.dropWhile
      Char.isWhitespace).reverse⟩

/-- generate_grounded_answer (generator.py lines 60-72). The provider call is
an oracle: `response_content` stands for the full text the provider returned.
The code strips it, compares to the sentinel, and returns the pair
(answer_text, is_sufficient). -/
def generate_grounded_answer (response_content : String) : String × Bool :=
  let answer := strip response_content
  if answer = SENTINEL then (answer, false) else (answer, true)

/-- Claim C5: generate_grounded_answer returns is_sufficient = false iff the
stripped provider text equals the sentinel exactly, and the answer component
is always the stripped text. -/
theorem C5_grounded_sufficiency (response_content : String) :
    ((generate_grounded_answer response_content).2 = false ↔
      strip response_content = "INSUFFICIENT_CONTEXT") ∧
    (generate_grounded_answer response_content).1 = strip response_content := by
  by_cases h : strip response_content = "INSUFFICIENT_CONTEXT"
  · simp [generate_grounded_answer, SENTINEL, h]
  · simp [generate_grounded_answer, SENTINEL, h]

/-- Witness for C5 at two concrete provider outputs: the padded sentinel is
insufficient, ordinary text is sufficient and stripped. -/
theorem C5_grounded_sufficiency_witness :
    (generate_grounded_answer "  INSUFFICIENT_CONTEXT\n").2 = false ∧
    (generate_grounded_answer " an answer ").2 ≠ false ∧
    (generate_grounded_answer " an answer ").1 = "an answer" := by
  refine ⟨(C5_grounded_sufficiency "  INSUFFICIENT_CONTEXT\n").1.mpr (by decide),
    fun hfalse => ?_, ?_⟩
  · have h := (C5_grounded_sufficiency " an answer ").1.mp hfalse
    revert h
    decide
  · have h := (C5_grounded_sufficiency " an answer ").2
    rw [h]
    decide

/-- IntentResult (backend/models/api_schemas.py). The intent is kept as a
string, as in the code, because build_pinecone_filter and the orchestrator
branch on arbitrary string values; confidence is a rational standing for the
Python float. -/
structure IntentResult where
  intent : String
  confidence : Rat
  reasoning : String
deriving DecidableEq, Repr

/-- The mode override _apply_mode (orchestrator.py lines 51-56): mode
"knowledge" forces assigned_knowledge, mode "performance" forces
performance_history, anything else (None, "auto", unknown) leaves the
classifier result untouched. The in-place mutation of the source is modelled
by returning the updated record. -/
def apply_mode (intent_result : IntentResult) (mode : Option String) :
    IntentResult :=
  if mode = some "knowledge" then
    { intent_result with intent := "assigned_knowledge" }
  else if mode = some "performance" then
    { intent_result with intent := "performance_history" }
  else intent_result

/-- Claim C7: the mode override is the identity for absent or "auto" mode,
forces assigned_knowledge for "knowledge" and performance_history for
"performance" regardless of the classified intent, and never changes an
intent into out_of_scope or general_professional (the reading of "never
produces" in which the untouched classifier output is produced by the
classifier, not by the override). -/
theorem C7_mode_override (intent_result : IntentResult) :
    apply_mode intent_result none = intent_result ∧
    apply_mode intent_result (some "auto") = intent_result ∧
    (apply_mode intent_result (some "knowledge")).intent =
      "assigned_knowledge" ∧
    (apply_mode intent_result (some "performance")).intent =
      "performance_history" ∧
    (∀ mode : Option String,
      (apply_mode intent_result mode).intent ≠ intent_result.intent →
        (apply_mode intent_result mode).intent ≠ "out_of_scope" ∧
        (apply_mode intent_result mode).intent ≠ "general_professional") := by
  refine ⟨rfl, rfl, rfl, rfl, fun mode hne => ?_⟩
  by_cases hk : mode = some "knowledge"
  · constructor <;> simp [apply_mode, hk]
  · by_cases hp : mode = some "performance"
    · constructor <;> simp [apply_mode, hk, hp]
    · exact absurd (by simp [apply_mode, hk, hp]) hne

/-- Witness for C7: the override applied to a classified out_of_scope result
with mode "knowledge" changes the intent, and the changed intent is neither
out_of_scope nor general_professional. -/
theorem C7_mode_override_witness :
    (apply_mode ⟨"out_of_scope", 1, "r"⟩ (some "knowledge")).intent ≠
      "out_of_scope" ∧
    (apply_mode ⟨"out_of_scope", 1, "r"⟩ (some "knowledge")).intent ≠
      "general_professional" :=
  (C7_mode_override ⟨"out_of_scope", 1, "r"⟩).2.2.2.2 (some "knowledge")
    (by decide)

/-- A JSON value, the shape json.loads produces: the classifier only inspects
objects, strings and numbers of it. -/
inductive Json where
  | null
  | bool (b : Bool)
  | num (q : Rat)
  | str (s : String)
  | arr (elems : List Json)
  | obj (fields : List (String × Json))

/-- Python dict lookup for an object decoded by json.loads: with duplicate
keys the last occurrence wins. -/
def dict_get (fields : List (String × Json)) (key : String) : Option Json :=
  (fields.reverse.find? (fun p => p.1 == key)).map (fun p => p.2)

/-- The five admissible intent literals of IntentResult
(backend/models/api_schemas.py lines 27-33). -/
def INTENT_VALUES : List String :=
  ["assigned_knowledge", "performance_history", "combined",
   "general_professional", "out_of_scope"]

/-- The fail-soft IntentResult returned by classify_intent on any parse or
validation failure (intent_classifier.py lines 75-80). -/
def fallback_intent_result : IntentResult :=
  ⟨"assigned_knowledge", 1/2,
   "Classification failed, defaulting to knowledge search."⟩

/-- The markdown code-fence stripping of classify_intent
(intent_classifier.py lines 59-66): strip, take the text after the first
fence when the reply starts with one, drop a leading json tag, strip again. -/
def strip_code_fences (content : String) : String :=
  let raw := strip content
  let raw :=
    if raw.startsWith "```" then
      let piece := (raw.splitOn "```").getD 1 ""
      if piece.startsWith "json" then piece.drop 4 else piece
    else raw
  strip raw

/-- The try-block body of classify_intent (intent_classifier.py lines 68-74)
applied to a decoded JSON value: none models the paths on which the Python
code raises inside the try block and falls into the except branch. The
subscript parsed["intent"] requires an object with that key; the confidence
is converted by the Python float builtin, modelled by the oracle `py_float`
(none meaning float raised); pydantic validation requires the intent to be a
string among the five literals and the reasoning to be a string. -/
def parse_intent_result (py_float : Json → Option Rat) (j : Json) :
    Option IntentResult :=
  match j with
  | Json.obj fields =>
    match dict_get fields "intent" with
    | none => none
    | some intentVal =>
      match py_float ((dict_get fields "confidence").getD (Json.num (9/10))) with
      | none => none
      | some conf =>
        match intentVal with
        | Json.str s =>
          if INTENT_VALUES.contains s then
            match (dict_get fields "reasoning").getD (Json.str "") with
            | Json.str reasoning => some ⟨s, conf, reasoning⟩
            | _ => none
          else none
        | _ => none
  | _ => none

/-- classify_intent (intent_classifier.py lines 35-80) downstream of the
provider call: `response_content` stands for the text the provider returned,
`json_loads` is the oracle standing for json.loads (none meaning it raised),
and `py_float` the oracle for the float builtin. Being a total Lean function,
this model can never raise: every failure lands on the fallback result. -/
def classify_intent (response_content : String)
    (json_loads : String → Option Json) (py_float : Json → Option Rat) :
    IntentResult :=
  match (json_loads (strip_code_fences response_content)).bind
      (parse_intent_result py_float) with
  | some r => r
  | none => fallback_intent_result

/-- Counterexample for claim C8 as stated: at the concrete malformed provider
output "not json" (json.loads raises), classify_intent does fail soft with
intent assigned_knowledge and confidence 0.5, but its reasoning text is
"Classification failed, defaulting to knowledge search.", not the claimed
"classification failed, defaulting". -/
theorem C8_reasoning_text_counterexample :
    (classify_intent "not json" (fun _ => none) (fun _ => none)).reasoning ≠
      "classification failed, defaulting" ∧
    (classify_intent "not json" (fun _ => none) (fun _ => none)).intent =
      "assigned_knowledge" ∧
    (classify_intent "not json" (fun _ => none) (fun _ => none)).confidence =
      1/2 := by
  refine ⟨?_, rfl, rfl⟩
  intro h
  simp [classify_intent, fallback_intent_result] at h

/-- Claim C8 (amended): on any parse or validation failure of the provider
output, classify_intent fails soft to intent assigned_knowledge, confidence
0.5 and the reasoning text "Classification failed, defaulting to knowledge
search.", and never raises (the model is a total function, so malformed
provider output always lands here rather than in an error). -/
theorem C8_classify_fails_soft (response_content : String)
    (json_loads : String → Option Json) (py_float : Json → Option Rat)
    (h : (json_loads (strip_code_fences response_content)).bind
      (parse_intent_result py_float) = none) :
    classify_intent response_content json_loads py_float =
      ⟨"assigned_knowledge", 1/2,
       "Classification failed, defaulting to knowledge search."⟩ := by
  unfold classify_intent
  rw [h]
  rfl

/-- Witness for C8 at the concrete provider output "not json" with a json
oracle that fails on every input. -/
theorem C8_classify_fails_soft_witness :
    classify_intent "not json" (fun _ => none) (fun _ => none) =
      ⟨"assigned_knowledge", 1/2,
       "Classification failed, defaulting to knowledge search."⟩ :=
  C8_classify_fails_soft "not json" (fun _ => none) (fun _ => none) rfl

/-- Recommendation (backend/models/api_schemas.py lines 38-44). -/
structure Recommendation where
  play_id : String
  play_title : String
  rep_id : Option String
  rep_title : Option String
  status : String
  reason : String
deriving DecidableEq, Repr

/-- SearchResponse (backend/models/api_schemas.py lines 47-52): the aggregate
returned by the single-response surface. The response_tier is kept as a
string with values tier1, tier2, tier3, grounded. -/
structure SearchResponse where
  intent : IntentResult
  response_tier : String
  answer : String
  sources : List SourceChunk
  recommendations : List Recommendation
deriving DecidableEq, Repr

/-- The canned tier1 refusal text (orchestrator.py lines 33-36). -/
def OUT_OF_SCOPE_ANSWER : String :=
  "I am a specialized search engine for your assigned BigSpring materials. I cannot assist with queries outside of your professional scope."

/-- The canned tier3 fallback text (orchestrator.py lines 38-43). -/
def TIER3_ANSWER : String :=
  "I couldn\x27t find any specific information in your assigned training materials that addresses this query. This may be because the topic isn\x27t covered in your current plays, or your query may be too specific. Try rephrasing your question or explore the recommendations below."

/-- _play_id_set_from_chunks (orchestrator.py lines 59-61): the Python set
comprehension keeps c.play_id for the chunks on which it is truthy, so a None
play_id and an empty-string play_id are both dropped. -/
def play_id_set_from_chunks (chunks : List SourceChunk) : Finset String :=
  (chunks.filterMap (fun c =>
    match c.play_id with
    | some p => if p = "" then none else some p
    | none => none)).toFinset

/-- Written from the words of the claim, for comparison with the code: the
set of distinct non-null play_ids across a chunk list. -/
def distinct_non_null_play_ids (chunks : List SourceChunk) : Finset String :=
  (chunks.filterMap (fun c => c.play_id)).toFinset

/-- The code set differs from the claimed set exactly by the empty string:
the truthiness test additionally drops play_id values equal to "". -/
theorem play_id_set_eq_sdiff (chunks : List SourceChunk) :
    play_id_set_from_chunks chunks =
      distinct_non_null_play_ids chunks \ {""} := by
  ext a
  simp only [play_id_set_from_chunks, distinct_non_null_play_ids,
    List.mem_toFinset, List.mem_filterMap, Finset.mem_sdiff,
    Finset.mem_singleton]
  constructor
  · rintro ⟨c, hc, hm⟩
    cases hp : c.play_id with
    | none => rw [hp] at hm; simp at hm
    | some p =>
      rw [hp] at hm
      by_cases hpe : p = ""
      · simp [hpe] at hm
      · simp only [if_neg hpe, Option.some.injEq] at hm
        subst hm
        exact ⟨⟨c, hc, hp⟩, hpe⟩
  · rintro ⟨⟨c, hc, hp⟩, hne⟩
    exact ⟨c, hc, by simp [hp, hne]⟩

/-- Orchestrator.run (orchestrator.py lines 70-132), the single-response
surface, downstream of its provider calls. Oracles: `classified` is the
classify_intent result, `general_answer` the generate_general_answer text,
`retrieved` the retrieve_chunks result, `grounded_content` the raw provider
text of the grounded generation (fed through generate_grounded_answer), and
`rec_fn` stands for get_recommendations as a function of the exclusion set it
is passed (user context, store and query are fixed by the request). -/
def run (classified : IntentResult) (mode : Option String)
    (general_answer : String) (retrieved : List SourceChunk)
    (grounded_content : String)
    (rec_fn : Finset String → List Recommendation) : SearchResponse :=
  let intent_result := apply_mode classified mode
  if intent_result.intent = "out_of_scope" then
    ⟨intent_result, "tier1", OUT_OF_SCOPE_ANSWER, [], []⟩
  else if intent_result.intent = "general_professional" then
    ⟨intent_result, "tier2", general_answer, [], rec_fn ∅⟩
  else if retrieved = [] then
    ⟨intent_result, "tier3", TIER3_ANSWER, [], rec_fn ∅⟩
  else if (generate_grounded_answer grounded_content).2 = false then
    ⟨intent_result, "tier3", TIER3_ANSWER, [], rec_fn ∅⟩
  else
    ⟨intent_result, "grounded", (generate_grounded_answer grounded_content).1,
     retrieved, rec_fn (play_id_set_from_chunks retrieved)⟩

/-- One frame of the streaming protocol (orchestrator.py lines 10-14), before
SSE serialisation. -/
inductive Event where
  | meta (intent : IntentResult) (response_tier : String)
      (sources : List SourceChunk) (recommendations : List Recommendation)
  | chunk (content : String)
  | done (is_insufficient : Bool)
  | error (message : String)
deriving DecidableEq, Repr

/-- Orchestrator.run_stream (orchestrator.py lines 136-231), the streaming
surface, downstream of its provider calls; the emitted frames are collected
in order. `general_tokens` and `grounded_tokens` are the oracle token
sequences of the two streaming generation calls. On the grounded path the
code first drains the whole grounded token stream into a buffer, then decides
on the sentinel, and only then emits chunk frames, which is what this
definition computes. The except-wrapper that converts a raised exception into
a terminal error frame is outside this pure model. -/
def run_stream (classified : IntentResult) (mode : Option String)
    (general_tokens : List String) (retrieved : List SourceChunk)
    (grounded_tokens : List String)
    (rec_fn : Finset String → List Recommendation) : List Event :=
  let intent_result := apply_mode classified mode
  if intent_result.intent = "out_of_scope" then
    [Event.meta intent_result "tier1" [] [],
     Event.chunk OUT_OF_SCOPE_ANSWER,
     Event.done false]
  else if intent_result.intent = "general_professional" then
    Event.meta intent_result "tier2" [] (rec_fn ∅) ::
      (general_tokens.map Event.chunk ++ [Event.done false])
  else if retrieved = [] then
    [Event.meta intent_result "tier3" [] (rec_fn ∅),
     Event.chunk TIER3_ANSWER,
     Event.done false]
  else
    let recommendations := rec_fn (play_id_set_from_chunks retrieved)
    let accumulated := String.join grounded_tokens
    let is_insufficient := strip accumulated = SENTINEL
    Event.meta intent_result "grounded" retrieved recommendations ::
      ((if is_insufficient then [Event.chunk TIER3_ANSWER]
        else grounded_tokens.map Event.chunk) ++
       [Event.done is_insufficient])

/-- Claim C6: on the streaming grounded path, when the buffered generator
output strips to the sentinel exactly, the emitted frames are exactly one
meta frame with tier grounded and the retrieved sources, one chunk frame
carrying the tier3 fallback text, and a done frame with is_insufficient =
true; no chunk frame carries the sentinel. The buffering itself is structural
in the model: the chunk frames are computed from the fully drained token
buffer. -/
theorem C6_streaming_sentinel_frames (classified : IntentResult)
    (mode : Option String) (general_tokens : List String)
    (retrieved : List SourceChunk) (grounded_tokens : List String)
    (rec_fn : Finset String → List Recommendation)
    (h₁ : (apply_mode classified mode).intent ≠ "out_of_scope")
    (h₂ : (apply_mode classified mode).intent ≠ "general_professional")
    (h₃ : retrieved ≠ [])
    (h₄ : strip (String.join grounded_tokens) = "INSUFFICIENT_CONTEXT") :
    run_stream classified mode general_tokens retrieved grounded_tokens
        rec_fn =
      [Event.meta (apply_mode classified mode) "grounded" retrieved
         (rec_fn (play_id_set_from_chunks retrieved)),
       Event.chunk TIER3_ANSWER,
       Event.done true] ∧
    (∀ s : String,
      Event.chunk s ∈ run_stream classified mode general_tokens retrieved
        grounded_tokens rec_fn → s ≠ "INSUFFICIENT_CONTEXT") := by
  have hrun : run_stream classified mode general_tokens retrieved
      grounded_tokens rec_fn =
      [Event.meta (apply_mode classified mode) "grounded" retrieved
         (rec_fn (play_id_set_from_chunks retrieved)),
       Event.chunk TIER3_ANSWER,
       Event.done true] := by
    unfold run_stream
    rw [if_neg h₁, if_neg h₂, if_neg h₃]
    simp [h₄, SENTINEL]
  refine ⟨hrun, fun s hs => ?_⟩
  rw [hrun] at hs
  simp only [List.mem_cons, List.mem_singleton] at hs
  rcases hs with h | h | h
  · cases h
  · cases h
    decide
  · rcases h with h | h
    · cases h
    · cases h

/-- Witness for C6: a concrete grounded streaming request whose two grounded
tokens accumulate to the padded sentinel. -/
theorem C6_streaming_sentinel_frames_witness :
    run_stream ⟨"assigned_knowledge", 1, "r"⟩ none []
        [⟨"a1", "pdf", some "p1", "P", "R", "t", some 1, none, none, some 1,
          none, none, none⟩]
        ["INSUFFICIENT", "_CONTEXT\n"] (fun _ => []) =
      [Event.meta ⟨"assigned_knowledge", 1, "r"⟩ "grounded"
         [⟨"a1", "pdf", some "p1", "P", "R", "t", some 1, none, none, some 1,
           none, none, none⟩] [],
       Event.chunk TIER3_ANSWER,
       Event.done true] :=
  (C6_streaming_sentinel_frames ⟨"assigned_knowledge", 1, "r"⟩ none []
    [⟨"a1", "pdf", some "p1", "P", "R", "t", some 1, none, none, some 1,
      none, none, none⟩]
    ["INSUFFICIENT", "_CONTEXT\n"] (fun _ => [])
    (by decide) (by decide) (by decide) (by decide)).1


/-- A chunk whose play_id is the empty string: its play_id is not null, yet
the Python truthiness test in _play_id_set_from_chunks drops it. -/
def empty_play_id_chunk : SourceChunk :=
  ⟨"a1", "pdf", some "", "P", "R", "t", none, none, none, some 1, none, none,
   none⟩

/-- Counterexample for claim C9 as stated: for the single retrieved chunk
whose play_id is the empty string (non-null), the request reaches the
grounded tier, yet the exclusion set handed to the recommender differs from
the set of distinct non-null play_ids across the chunks: the code drops the
empty string. The recommender oracle here answers differently on the two
sets, exposing the difference through the response. -/
theorem C9_exclusion_set_counterexample :
    (run ⟨"assigned_knowledge", 1, "r"⟩ none "" [empty_play_id_chunk]
        "an answer"
        (fun s => if "" ∈ s then [⟨"p", "P", none, none, "assigned", "b"⟩]
          else [])).response_tier = "grounded" ∧
    (run ⟨"assigned_knowledge", 1, "r"⟩ none "" [empty_play_id_chunk]
        "an answer"
        (fun s => if "" ∈ s then [⟨"p", "P", none, none, "assigned", "b"⟩]
          else [])).recommendations ≠
      (fun s : Finset String =>
        if "" ∈ s then [(⟨"p", "P", none, none, "assigned", "b"⟩ :
          Recommendation)] else [])
        (distinct_non_null_play_ids [empty_play_id_chunk]) := by
  constructor
  · decide
  · decide

/-- Claim C9 (amended): the exclusion set passed to the recommender on the
grounded path is the set of distinct truthy play_ids across the retrieved
chunks, that is the distinct non-null play_ids with the empty string also
removed (duplicates collapse, null and empty play_ids are dropped); the
tier2 and tier3 paths always pass the empty exclusion set. -/
theorem C9_exclusion_set (classified : IntentResult) (mode : Option String)
    (general_answer : String) (retrieved : List SourceChunk)
    (grounded_content : String)
    (rec_fn : Finset String → List Recommendation) :
    ((run classified mode general_answer retrieved grounded_content
        rec_fn).response_tier = "grounded" →
      (run classified mode general_answer retrieved grounded_content
        rec_fn).recommendations =
        rec_fn (distinct_non_null_play_ids retrieved \ {""})) ∧
    ((run classified mode general_answer retrieved grounded_content
        rec_fn).response_tier = "tier2" ∨
     (run classified mode general_answer retrieved grounded_content
        rec_fn).response_tier = "tier3" →
      (run classified mode general_answer retrieved grounded_content
        rec_fn).recommendations = rec_fn ∅) := by
  rw [← play_id_set_eq_sdiff]
  by_cases h₁ : (apply_mode classified mode).intent = "out_of_scope"
  · constructor <;> simp [run, h₁]
  · by_cases h₂ : (apply_mode classified mode).intent = "general_professional"
    · constructor <;> simp [run, h₁, h₂]
    · by_cases h₃ : retrieved = []
      · constructor <;> simp [run, h₁, h₂, h₃]
      · by_cases h₄ : (generate_grounded_answer grounded_content).2 = false
        · constructor <;> simp [run, h₁, h₂, h₃, h₄]
        · constructor <;> simp [run, h₁, h₂, h₃, h₄]

/-- Witness for C9 at a concrete grounded request: a chunk list with a
duplicate play_id, a null one and an empty one collapses to the single
non-empty id, and a concrete tier3 request passes the empty set. -/
theorem C9_exclusion_set_witness :
    (run ⟨"assigned_knowledge", 1, "r"⟩ none "" 
        [⟨"a1", "pdf", some "p1", "P", "R", "t", none, none, none, some 1,
          none, none, none⟩,
         ⟨"a2", "pdf", some "p1", "P", "R", "t", none, none, none, some 1,
          none, none, none⟩,
         ⟨"a3", "pdf", none, "P", "R", "t", none, none, none, some 1,
          none, none, none⟩,
         empty_play_id_chunk]
        "an answer" (fun s => if "p1" ∈ s then [] else
          [⟨"p", "P", none, none, "assigned", "b"⟩])).recommendations =
      (fun s : Finset String => if "p1" ∈ s then [] else
        [(⟨"p", "P", none, none, "assigned", "b"⟩ : Recommendation)])
        (distinct_non_null_play_ids
          [⟨"a1", "pdf", some "p1", "P", "R", "t", none, none, none, some 1,
            none, none, none⟩,
           ⟨"a2", "pdf", some "p1", "P", "R", "t", none, none, none, some 1,
            none, none, none⟩,
           ⟨"a3", "pdf", none, "P", "R", "t", none, none, none, some 1,
            none, none, none⟩,
           empty_play_id_chunk] \ {""}) ∧
    (run ⟨"assigned_knowledge", 1, "r"⟩ none "" []
        "an answer" (fun _ => [⟨"p", "P", none, none, "assigned", "b"⟩])).recommendations =
      (fun _ : Finset String =>
        [(⟨"p", "P", none, none, "assigned", "b"⟩ : Recommendation)]) ∅ := by
  constructor
  · exact (C9_exclusion_set ⟨"assigned_knowledge", 1, "r"⟩ none ""
      [⟨"a1", "pdf", some "p1", "P", "R", "t", none, none, none, some 1,
        none, none, none⟩,
       ⟨"a2", "pdf", some "p1", "P", "R", "t", none, none, none, some 1,
        none, none, none⟩,
       ⟨"a3", "pdf", none, "P", "R", "t", none, none, none, some 1,
        none, none, none⟩,
       empty_play_id_chunk]
      "an answer" (fun s => if "p1" ∈ s then [] else
        [⟨"p", "P", none, none, "assigned", "b"⟩])).1 (by decide)
  · exact (C9_exclusion_set ⟨"assigned_knowledge", 1, "r"⟩ none "" []
      "an answer"
      (fun _ => [⟨"p", "P", none, none, "assigned", "b"⟩])).2
      (Or.inr (by decide))

/-- Claim C10: in every SearchResponse the single-response surface returns,
the sources list is non-empty exactly when the response tier is grounded, and
on the grounded tier the sources are the full (non-empty) retrieved chunk
list; the three other tiers always carry empty sources. -/
theorem C10_sources_iff_grounded (classified : IntentResult)
    (mode : Option String) (general_answer : String)
    (retrieved : List SourceChunk) (grounded_content : String)
    (rec_fn : Finset String → List Recommendation) :
    ((run classified mode general_answer retrieved grounded_content
        rec_fn).sources ≠ [] ↔
      (run classified mode general_answer retrieved grounded_content
        rec_fn).response_tier = "grounded") ∧
    ((run classified mode general_answer retrieved grounded_content
        rec_fn).response_tier = "grounded" →
      (run classified mode general_answer retrieved grounded_content
        rec_fn).sources = retrieved ∧ retrieved ≠ []) := by
  by_cases h₁ : (apply_mode classified mode).intent = "out_of_scope"
  · constructor <;> simp [run, h₁]
  · by_cases h₂ : (apply_mode classified mode).intent = "general_professional"
    · constructor <;> simp [run, h₁, h₂]
    · by_cases h₃ : retrieved = []
      · constructor <;> simp [run, h₁, h₂, h₃]
      · by_cases h₄ : (generate_grounded_answer grounded_content).2 = false
        · constructor <;> simp [run, h₁, h₂, h₃, h₄]
        · constructor <;> simp [run, h₁, h₂, h₃, h₄]

/-- Witness for C10 at a concrete grounded request: the sources equal the
retrieved chunk list and are non-empty. -/
theorem C10_sources_iff_grounded_witness :
    (run ⟨"assigned_knowledge", 1, "r"⟩ none ""
        [⟨"a1", "pdf", some "p1", "P", "R", "t", none, none, none, some 1,
          none, none, none⟩]
        "an answer" (fun _ => [])).sources =
      [⟨"a1", "pdf", some "p1", "P", "R", "t", none, none, none, some 1,
        none, none, none⟩] ∧
    [(⟨"a1", "pdf", some "p1", "P", "R", "t", none, none, none, some 1,
      none, none, none⟩ : SourceChunk)] ≠ [] :=
  (C10_sources_iff_grounded ⟨"assigned_knowledge", 1, "r"⟩ none ""
    [⟨"a1", "pdf", some "p1", "P", "R", "t", none, none, none, some 1,
      none, none, none⟩]
    "an answer" (fun _ => [])).2 (by decide)

end ISP
